import Mathlib

set_option maxRecDepth 8192

/-
  Verification development for the AI leadership assessment application
  (single source file `app.py`).  The definitions below are a shallow
  embedding of the program's data model and operations: the Gemini client
  retry loop, the JSON response cleaning/parsing, the three question
  generators' shape validation, the report validator, and the
  Streamlit phase-state workflow handlers.  Python-specific semantics
  (`in` on dicts/strings/lists, subscripting, `len`, truthiness of
  strings) are modelled explicitly; fallible operations return `Except`.
-/

namespace AILeadership

/-! ### Python string helpers -/

/-- Whitespace characters recognized by Python's `str.strip()` and
    `str.split()` (ASCII subset; the app handles ASCII and Arabic text,
    neither of which uses the exotic Unicode spaces). -/
def isPySpace (c : Char) : Bool :=
  c = ' ' || c = '\t' || c = '\n' || c = '\r' || c = '\x0b' || c = '\x0c'

/-- Python `str.strip()`: remove leading and trailing whitespace. -/
def pyStrip (s : String) : String :=
  ⟨((s.data.dropWhile isPySpace).reverse.dropWhile isPySpace).reverse⟩

/-- Worker for `pySplit`; fuel-based so the recursion is structural.
    The fuel is always at least the length of the character list, which
    is enough since every round consumes at least one character. -/
def pySplitGo : Nat → List Char → List String
  | 0, _ => []
  | fuel + 1, cs =>
    let cs1 := cs.dropWhile isPySpace
    match cs1 with
    | [] => []
    | _ :: _ =>
      (⟨cs1.takeWhile (fun c => !isPySpace c)⟩ : String) ::
        pySplitGo fuel (cs1.dropWhile (fun c => !isPySpace c))

/-- Python `str.split()` with no argument: split on whitespace runs,
    discarding empty pieces. -/
def pySplit (s : String) : List String :=
  pySplitGo (s.data.length + 1) s.data

/-- Substring search on character lists (Python `needle in haystack`
    for strings).  The empty needle is contained in everything. -/
def listContainsTok (tok : List Char) : List Char → Bool
  | [] => tok.isEmpty
  | c :: rest => tok.isPrefixOf (c :: rest) || listContainsTok tok rest

/-- Python `tok in s` for strings: substring containment. -/
def strContains (s tok : String) : Bool :=
  listContainsTok tok.data s.data

/-- Drop a single leading newline, if present (the optional `\n?` at the
    end of the cleaning regexes). -/
def dropOneNL : List Char → List Char
  | '\n' :: t => t
  | t => t

/-- Worker for `removeTokenNL`: a single left-to-right pass replacing
    every non-overlapping occurrence of `tok` (plus an optional
    following newline) with nothing, exactly as `re.sub(tok + r'\n?', '', s)`
    does for a literal token.  Fuel-based; fuel `cs.length` suffices
    because every round consumes at least one character. -/
def removeTokGo (tok : List Char) : Nat → List Char → List Char
  | 0, cs => cs
  | fuel + 1, cs =>
    match cs with
    | [] => []
    | c :: rest =>
      if tok ≠ [] ∧ tok.isPrefixOf cs then
        removeTokGo tok fuel (dropOneNL (cs.drop tok.length))
      else
        c :: removeTokGo tok fuel rest

/-- `re.sub(tok + r'\n?', '', s)` for a literal (regex-free) token. -/
def removeTokenNL (tok : String) (s : String) : String :=
  ⟨removeTokGo tok.data s.data.length s.data⟩

/-! ### JSON values (result of `json.loads`)

Numbers are modelled as exact rationals; Python decodes JSON numbers to
`int`/`float`, and for the magnitudes the app compares (scores in
`[1.0, 10.0]`) the rational model agrees with float semantics. -/

inductive Json where
  | null : Json
  | bool (b : Bool) : Json
  | num (q : Rat) : Json
  | str (s : String) : Json
  | arr (elems : List Json) : Json
  | obj (fields : List (String × Json)) : Json

/-! ### A strict JSON decoder (embedding of `json.loads`) -/

/-- JSON structural whitespace. -/
def isJsonWs (c : Char) : Bool :=
  c = ' ' || c = '\t' || c = '\n' || c = '\r'

def skipWs (cs : List Char) : List Char := cs.dropWhile isJsonWs

def hexVal (c : Char) : Option Nat :=
  if '0' ≤ c ∧ c ≤ '9' then some (c.toNat - 48)
  else if 'a' ≤ c ∧ c ≤ 'f' then some (c.toNat - 87)
  else if 'A' ≤ c ∧ c ≤ 'F' then some (c.toNat - 55)
  else none

/-- Decode the body of a JSON string literal (after the opening quote),
    handling the standard escapes; strict about control characters, as
    `json.loads` is by default. -/
def parseStringGo : Nat → List Char → List Char → Except String (String × List Char)
  | 0, _, _ => .error "Unterminated string"
  | fuel + 1, acc, cs =>
    match cs with
    | [] => .error "Unterminated string"
    | c :: rest =>
      if c = '"' then .ok (⟨acc.reverse⟩, rest)
      else if c = '\\' then
        match rest with
        | [] => .error "Unterminated string"
        | e :: rest2 =>
          if e = '"' then parseStringGo fuel ('"' :: acc) rest2
          else if e = '\\' then parseStringGo fuel ('\\' :: acc) rest2
          else if e = '/' then parseStringGo fuel ('/' :: acc) rest2
          else if e = 'b' then parseStringGo fuel ('\x08' :: acc) rest2
          else if e = 'f' then parseStringGo fuel ('\x0c' :: acc) rest2
          else if e = 'n' then parseStringGo fuel ('\n' :: acc) rest2
          else if e = 'r' then parseStringGo fuel ('\r' :: acc) rest2
          else if e = 't' then parseStringGo fuel ('\t' :: acc) rest2
          else if e = 'u' then
            match rest2 with
            | h1 :: h2 :: h3 :: h4 :: rest3 =>
              match hexVal h1, hexVal h2, hexVal h3, hexVal h4 with
              | some a, some b, some c2, some d =>
                parseStringGo fuel
                  (Char.ofNat (a * 4096 + b * 256 + c2 * 16 + d) :: acc) rest3
              | _, _, _, _ => .error "Invalid \\uXXXX escape"
            | _ => .error "Invalid \\uXXXX escape"
          else .error "Invalid \\escape"
      else if c.toNat < 32 then .error "Invalid control character"
      else parseStringGo fuel (c :: acc) rest

def digitsToNat (ds : List Char) : Nat :=
  ds.foldl (fun a c => a * 10 + (c.toNat - 48)) 0

/-- Decode a JSON number per the JSON grammar
    `-? (0 | [1-9][0-9]*) (. [0-9]+)? ([eE][+-]? [0-9]+)?`.
    A malformed fraction or exponent is left unconsumed, exactly as the
    Python scanner's regex behaves (the leftover then triggers the
    top-level `Extra data` error). -/
def parseNumber (cs0 : List Char) : Except String (Rat × List Char) :=
  let signed := match cs0 with
    | '-' :: t => (true, t)
    | _ => (false, cs0)
  let neg := signed.1
  let cs1 := signed.2
  let intRes : Except String (Nat × List Char) :=
    match cs1 with
    | '0' :: t => .ok (0, t)
    | c :: _ =>
      if c.isDigit then
        .ok (digitsToNat (cs1.takeWhile Char.isDigit), cs1.dropWhile Char.isDigit)
      else .error "Expecting value"
    | [] => .error "Expecting value"
  match intRes with
  | .error e => .error e
  | .ok (ip, cs2) =>
    let fracPart : List Char × List Char :=
      match cs2 with
      | '.' :: t =>
        let ds := t.takeWhile Char.isDigit
        if ds.isEmpty then ([], cs2) else (ds, t.dropWhile Char.isDigit)
      | _ => ([], cs2)
    let fds := fracPart.1
    let cs3 := fracPart.2
    let expPart : Int × List Char :=
      match cs3 with
      | c :: t =>
        if c = 'e' ∨ c = 'E' then
          match t with
          | '+' :: t2 =>
            let ds := t2.takeWhile Char.isDigit
            if ds.isEmpty then (0, cs3) else ((digitsToNat ds : Int), t2.dropWhile Char.isDigit)
          | '-' :: t2 =>
            let ds := t2.takeWhile Char.isDigit
            if ds.isEmpty then (0, cs3) else (-(digitsToNat ds : Int), t2.dropWhile Char.isDigit)
          | _ =>
            let ds := t.takeWhile Char.isDigit
            if ds.isEmpty then (0, cs3) else ((digitsToNat ds : Int), t.dropWhile Char.isDigit)
        else (0, cs3)
      | [] => (0, cs3)
    let ex := expPart.1
    let cs4 := expPart.2
    let base : Rat := (ip : Rat) + (digitsToNat fds : Rat) / ((10 : Rat) ^ fds.length)
    let value : Rat := (if neg then -base else base) * (10 : Rat) ^ ex
    .ok (value, cs4)

mutual

/-- Decode one JSON value (after skipping leading whitespace). -/
def parseValueGo : Nat → List Char → Except String (Json × List Char)
  | 0, _ => .error "Expecting value"
  | fuel + 1, cs =>
    match skipWs cs with
    | [] => .error "Expecting value"
    | c :: rest =>
      if c = '"' then
        match parseStringGo rest.length [] rest with
        | .error e => .error e
        | .ok (s, r) => .ok (Json.str s, r)
      else if c = '\x7b' then
        match skipWs rest with
        | '\x7d' :: r2 => .ok (Json.obj [], r2)
        | r2 => parseMembersGo fuel r2 []
      else if c = '[' then
        match skipWs rest with
        | ']' :: r2 => .ok (Json.arr [], r2)
        | r2 => parseElemsGo fuel r2 []
      else if c = 't' then
        if ['r', 'u', 'e'].isPrefixOf rest then .ok (Json.bool true, rest.drop 3)
        else .error "Expecting value"
      else if c = 'f' then
        if ['a', 'l', 's', 'e'].isPrefixOf rest then .ok (Json.bool false, rest.drop 4)
        else .error "Expecting value"
      else if c = 'n' then
        if ['u', 'l', 'l'].isPrefixOf rest then .ok (Json.null, rest.drop 3)
        else .error "Expecting value"
      else if c = '-' ∨ c.isDigit then
        match parseNumber (c :: rest) with
        | .error e => .error e
        | .ok (q, r) => .ok (Json.num q, r)
      else .error "Expecting value"

/-- Decode the members of a JSON object, positioned at a key. -/
def parseMembersGo : Nat → List Char → List (String × Json) → Except String (Json × List Char)
  | 0, _, _ => .error "Expecting value"
  | fuel + 1, cs, acc =>
    match cs with
    | '"' :: rest =>
      match parseStringGo rest.length [] rest with
      | .error e => .error e
      | .ok (k, r1) =>
        match skipWs r1 with
        | ':' :: r2 =>
          match parseValueGo fuel r2 with
          | .error e => .error e
          | .ok (v, r3) =>
            match skipWs r3 with
            | ',' :: r4 => parseMembersGo fuel (skipWs r4) (acc ++ [(k, v)])
            | '\x7d' :: r4 => .ok (Json.obj (acc ++ [(k, v)]), r4)
            | _ => .error "Expecting comma delimiter"
        | _ => .error "Expecting colon delimiter"
    | _ => .error "Expecting property name enclosed in double quotes"

/-- Decode the elements of a JSON array, positioned at a value. -/
def parseElemsGo : Nat → List Char → List Json → Except String (Json × List Char)
  | 0, _, _ => .error "Expecting value"
  | fuel + 1, cs, acc =>
    match parseValueGo fuel cs with
    | .error e => .error e
    | .ok (v, r1) =>
      match skipWs r1 with
      | ',' :: r2 => parseElemsGo fuel r2 (acc ++ [v])
      | ']' :: r2 => .ok (Json.arr (acc ++ [v]), r2)
      | _ => .error "Expecting comma delimiter"

end

/-- `json.loads`: strict decode of a full document; trailing non-space
    characters are an error. -/
def jsonDecode (s : String) : Except String Json :=
  match parseValueGo (s.data.length + 1) s.data with
  | .error e => .error e
  | .ok (v, rest) =>
    if (skipWs rest).isEmpty then .ok v else .error "Extra data"

/-! ### Python container semantics on decoded JSON values -/

/-- Does an association list of object fields contain a key? -/
def hasKey (kvs : List (String × Json)) (k : String) : Bool :=
  kvs.any (fun p => p.1 == k)

/-- First binding of a key in an object (Python dicts never hold
    duplicate keys, so this is the binding). -/
def objLookup (kvs : List (String × Json)) (k : String) : Option Json :=
  (kvs.find? (fun p => p.1 == k)).map (fun p => p.2)

/-- `d[k] = v` on a dict: replace the existing binding in place,
    otherwise append (Python dicts preserve insertion order). -/
def objSet : List (String × Json) → String → Json → List (String × Json)
  | [], k, v => [(k, v)]
  | (k1, v1) :: t, k, v =>
    if k1 = k then (k1, v) :: t else (k1, v1) :: objSet t k v

/-- Whether one element of a decoded JSON list equals the string `key`
    under Python `==` (a string only equals strings). -/
def eqStrElem (key : String) : Json → Bool
  | .str s => s == key
  | _ => false

/-- Python `key in container` for a string key: dict key membership,
    substring test on strings, `==`-membership on lists (a string key
    only equals string elements), `TypeError` on non-containers. -/
def pyInStr (key : String) : Json → Except String Bool
  | .obj kvs => .ok (hasKey kvs key)
  | .str s => .ok (strContains s key)
  | .arr xs => .ok (xs.any (eqStrElem key))
  | .null => .error "TypeError: argument is not iterable"
  | .bool _ => .error "TypeError: argument is not iterable"
  | .num _ => .error "TypeError: argument is not iterable"

/-- Python `container[key]` for a string key. -/
def pyGet : Json → String → Except String Json
  | .obj kvs, key =>
    match objLookup kvs key with
    | some v => .ok v
    | none => .error ("KeyError: " ++ key)
  | .str _, _ => .error "TypeError: string indices must be integers"
  | .arr _, _ => .error "TypeError: list indices must be integers"
  | .null, _ => .error "TypeError: object is not subscriptable"
  | .bool _, _ => .error "TypeError: object is not subscriptable"
  | .num _, _ => .error "TypeError: object is not subscriptable"

/-- Python `container[key] = v` for a string key (only dicts support it
    among JSON-decoded values). -/
def pySetItem : Json → String → Json → Except String Json
  | .obj kvs, key, v => .ok (Json.obj (objSet kvs key v))
  | .null, _, _ => .error "TypeError: object does not support item assignment"
  | .bool _, _, _ => .error "TypeError: object does not support item assignment"
  | .num _, _, _ => .error "TypeError: object does not support item assignment"
  | .str _, _, _ => .error "TypeError: object does not support item assignment"
  | .arr _, _, _ => .error "TypeError: object does not support item assignment"

/-- Python `len` on a JSON-decoded value. -/
def pyLen : Json → Except String Nat
  | .str s => .ok s.length
  | .arr xs => .ok xs.length
  | .obj kvs => .ok kvs.length
  | .null => .error "TypeError: object has no len"
  | .bool _ => .error "TypeError: object has no len"
  | .num _ => .error "TypeError: object has no len"

/-! ### Generation Client (`_make_api_call_with_retry`, app.py 584-599) -/

/-- One outcome of `self.model.generate_content(prompt)`: either the
    call raised, or it returned a response whose `.text` is missing
    (`none`) or the given string. -/
inductive ApiResult where
  | raised (msg : String)
  | replied (text : Option String)

/-- The body of one retry-loop iteration: a raised call fails with its
    message; a falsy response or falsy/empty text fails with
    `Empty response from API` (the `raise` inside the `try` is caught by
    the same `except`); otherwise the stripped text is returned. -/
def attemptOutcome : ApiResult → Except String String
  | .raised m => .error m
  | .replied none => .error "Empty response from API"
  | .replied (some t) =>
    if t = "" then .error "Empty response from API" else .ok (pyStrip t)

/-- `max_retries` default used by every call site. -/
def maxRetries : Nat := 3

/-- The retry loop over `attempt in range(max_retries)`.  The second
    component of the result is the trace of `time.sleep(2 ** attempt)`
    backoff durations, in order.  Fuel equals the number of remaining
    iterations and is `maxRetries` at the top call. -/
def retryGo (oracle : Nat → ApiResult) : Nat → Nat → List Nat →
    Except String String × List Nat
  | 0, _, sleeps => (.error "loop exhausted", sleeps)
  | fuel + 1, attempt, sleeps =>
    match attemptOutcome (oracle attempt) with
    | .ok t => (.ok t, sleeps)
    | .error e =>
      if attempt = maxRetries - 1 then
        (.error ("API call failed after " ++ toString maxRetries ++ " attempts: " ++ e), sleeps)
      else
        retryGo oracle fuel (attempt + 1) (sleeps ++ [2 ^ attempt])

/-- `_make_api_call_with_retry` with the oracle describing what the
    underlying `generate_content` call does on each attempt. -/
def makeApiCallWithRetry (oracle : Nat → ApiResult) :
    Except String String × List Nat :=
  retryGo oracle maxRetries 0 []

/-- An oracle from the first three attempts' behaviors (attempts beyond
    the second repeat the third behavior; they are never reached). -/
def oracle3 (a b c : ApiResult) : Nat → ApiResult :=
  fun i => if i = 0 then a else if i = 1 then b else c

/-! ### Response Parser (`_clean_and_parse_json`, app.py 601-615) -/

/-- The cleaning pass of `_clean_and_parse_json`:
    `re.sub(r'json\n?', '', text)`, then `re.sub(r'```\n?', '', text)`,
    then `re.sub(r'', '', text)` (the identity), then `text.strip()`. -/
def cleanText (text : String) : String :=
  pyStrip (removeTokenNL "```" (removeTokenNL "json" text))

/-- `_clean_and_parse_json`: clean, then strictly decode; a decode
    error is re-raised with a wrapping message. -/
def cleanAndParseJson (text : String) : Except String Json :=
  match jsonDecode (cleanText text) with
  | .ok v => .ok v
  | .error e => .error ("Failed to parse AI response as JSON: " ++ e)

/-- Modelled from the spec: the Response Parser section (§4.2) says the
    parser strips "known code-fence/markdown wrapping tokens and
    surrounding whitespace" only — i.e. a leading ```` ```json ````/```` ``` ````
    fence and a trailing ```` ``` ```` fence — and never alters the payload.
    This definition follows those words, for comparison with `cleanText`. -/
def specStripFences (s : String) : String :=
  let t := pyStrip s
  let t := if "```json".data.isPrefixOf t.data then (⟨t.data.drop 7⟩ : String)
           else if "```".data.isPrefixOf t.data then (⟨t.data.drop 3⟩ : String)
           else t
  let t := if "```".data.isSuffixOf t.data then (⟨t.data.take (t.data.length - 3)⟩ : String)
           else t
  pyStrip t

/-- Modelled from the spec: fence-stripping followed by a strict decode,
    with no other change to the text. -/
def specParse (raw : String) : Except String Json :=
  match jsonDecode (specStripFences raw) with
  | .ok v => .ok v
  | .error e => .error ("Failed to parse AI response as JSON: " ++ e)

/-! ### Content generators: shape validation
    (`generate_comprehensive_yes_no_questions` app.py 666-678,
    `generate_comprehensive_mcq_questions` app.py 747-762,
    `generate_comprehensive_detailed_report` app.py 922-962) -/

/-- Whether one parsed reply item passes the per-item check of the
    Yes/No/Maybe loop: `isinstance(q, dict)` with the keys `question`
    and `pillar` present (values unchecked). -/
def ynItemOk : Json → Bool
  | .obj kvs => hasKey kvs "question" && hasKey kvs "pillar"
  | _ => false

/-- Validation of the Yes/No/Maybe generator's parsed reply:
    must be a list of exactly 7 entries, each passing `ynItemOk`. -/
def validateYesNoShape : Json → Except String (List Json)
  | .arr qs =>
    if qs.length ≠ 7 then
      .error "Invalid question format - must be exactly 7 questions"
    else if qs.all ynItemOk then
      .ok qs
    else .error "Invalid question structure"
  | .null => .error "Invalid question format - must be exactly 7 questions"
  | .bool _ => .error "Invalid question format - must be exactly 7 questions"
  | .num _ => .error "Invalid question format - must be exactly 7 questions"
  | .str _ => .error "Invalid question format - must be exactly 7 questions"
  | .obj _ => .error "Invalid question format - must be exactly 7 questions"

/-- The Yes/No/Maybe generator after the model reply came back: parse
    the raw text, then validate its shape. -/
def generateYesNoFromReply (reply : String) : Except String (List Json) :=
  match cleanAndParseJson reply with
  | .error e => .error e
  | .ok j => validateYesNoShape j

/-- Per-item check of the MCQ loop body:
    `all(key in q for key in ['question', 'options', 'pillar'])`
    (short-circuiting, `in` with Python semantics, so a non-container
    item raises `TypeError`), then `len(q['options']) != 4` raises. -/
def checkMcqItem (q : Json) : Except String Unit := do
  let b1 ← pyInStr "question" q
  let b2 ← if b1 then pyInStr "options" q else pure false
  let b3 ← if b1 && b2 then pyInStr "pillar" q else pure false
  if !(b1 && b2 && b3) then .error "Invalid MCQ structure"
  else do
    let opts ← pyGet q "options"
    let n ← pyLen opts
    if n ≠ 4 then .error "MCQ must have exactly 4 options" else pure ()

/-- The `for q in questions` validation loop of the MCQ generator:
    stop at the first item that raises. -/
def checkAllMcq : List Json → Except String Unit
  | [] => .ok ()
  | q :: t => do
    checkMcqItem q
    checkAllMcq t

/-- Validation of the MCQ generator's parsed reply: a list of exactly
    7 entries, each passing `checkMcqItem`. -/
def validateMcqShape : Json → Except String (List Json)
  | .arr qs =>
    if qs.length ≠ 7 then
      .error "Invalid MCQ format - must be exactly 7 questions"
    else do
      checkAllMcq qs
      .ok qs
  | .null => .error "Invalid MCQ format - must be exactly 7 questions"
  | .bool _ => .error "Invalid MCQ format - must be exactly 7 questions"
  | .num _ => .error "Invalid MCQ format - must be exactly 7 questions"
  | .str _ => .error "Invalid MCQ format - must be exactly 7 questions"
  | .obj _ => .error "Invalid MCQ format - must be exactly 7 questions"

/-- The MCQ generator after the model reply came back. -/
def generateMcqFromReply (reply : String) : Except String (List Json) :=
  match cleanAndParseJson reply with
  | .error e => .error e
  | .ok j => validateMcqShape j

/-- The six fixed competency pillars, `CONTENT['en']['pillars']`. -/
def pillarsEn : List String :=
  ["Strategic Thinking",
   "Leading Change & Adaptability",
   "Effective Communication & Influence",
   "Empowerment & Motivation",
   "Responsibility & Accountability",
   "Innovation & Continuous Improvement"]

/-- The required top-level keys of the detailed report. -/
def reportRequiredKeys : List String :=
  ["report_title", "executive_summary", "overall_leadership_score",
   "leadership_profile_breakdown", "overall_strengths", "overall_development_areas",
   "detailed_insights_from_response_types", "personalized_recommendations",
   "personal_development_plan", "cultural_and_industry_nuances", "closing_remarks"]

/-- `not isinstance(score, (int, float)) or not (1.0 <= score <= 10.0)`
    negated: in Python `bool` is a subclass of `int` (`True == 1`), so a
    boolean score is numeric with value 0 or 1. -/
def scoreOk (s : Json) : Bool :=
  match s with
  | .num q => decide ((1 : Rat) ≤ q) && decide (q ≤ (10 : Rat))
  | .bool b => b
  | _ => false

/-- The validation/repair pass of `generate_comprehensive_detailed_report`
    on the parsed reply (app.py 928-958): substitute a placeholder string
    for each missing required key, then default the overall score and each
    English-pillar score to `7.0` when non-numeric or outside `[1.0, 10.0]`.
    Note that `'score' in detailed_report['overall_leadership_score']` uses
    Python `in`, which is a substring test when the value is a string. -/
def validateDetailedReport (j : Json) : Except String Json := do
  let r1 ← reportRequiredKeys.foldlM (fun r key => do
      let b ← pyInStr key r
      if b then pure r
      else pySetItem r key (Json.str ("Analysis for " ++ key ++ " not available"))) j
  let b1 ← pyInStr "overall_leadership_score" r1
  let r2 ←
    if b1 then do
      let ols ← pyGet r1 "overall_leadership_score"
      let b2 ← pyInStr "score" ols
      if b2 then do
        let s ← pyGet ols "score"
        if scoreOk s then pure r1
        else do
          let ols2 ← pySetItem ols "score" (Json.num 7)
          pySetItem r1 "overall_leadership_score" ols2
      else pure r1
    else pure r1
  let b3 ← pyInStr "leadership_profile_breakdown" r2
  if b3 then
    pillarsEn.foldlM (fun r pillar => do
      let bd ← pyGet r "leadership_profile_breakdown"
      let bp ← pyInStr pillar bd
      if bp then do
        let pd ← pyGet bd pillar
        let bs ← pyInStr "score" pd
        if bs then do
          let s ← pyGet pd "score"
          if scoreOk s then pure r
          else do
            let pd2 ← pySetItem pd "score" (Json.num 7)
            let bd2 ← pySetItem bd pillar pd2
            pySetItem r "leadership_profile_breakdown" bd2
        else pure r
      else pure r) r2
  else pure r2

/-! ### Session state store (`initialize_session_state`, app.py 1024-1042,
    and the new-assessment reset, app.py 1578-1586) -/

/-- The kinds of values held in `st.session_state`: strings (language,
    phase, scenario text), JSON-like data (profile, questions, responses,
    report), the opaque assessment-engine instance (identified by a tag,
    `none` for the `None` default), the `start_time` datetime, and the
    question-index counter. -/
inductive SVal where
  | vstr (s : String)
  | vjson (j : Json)
  | vengine (inst : Option Nat)
  | vtime (t : Option Nat)
  | vnat (n : Nat)

/-- `st.session_state` as an insertion-ordered key/value store. -/
abbrev Store := List (String × SVal)

def storeHas (st : Store) (k : String) : Bool :=
  st.any (fun p => p.1 == k)

def storeLookup (st : Store) (k : String) : Option SVal :=
  (st.find? (fun p => p.1 == k)).map (fun p => p.2)

def storeSet : Store → String → SVal → Store
  | [], k, v => [(k, v)]
  | (k1, v1) :: t, k, v =>
    if k1 = k then (k1, v) :: t else (k1, v1) :: storeSet t k v

/-- The `defaults` dict of `initialize_session_state`. -/
def sessionDefaults : Store :=
  [("language", .vstr "en"),
   ("assessment_phase", .vstr "setup"),
   ("user_profile", .vjson (Json.obj [])),
   ("yes_no_questions", .vjson (Json.arr [])),
   ("mcq_questions", .vjson (Json.arr [])),
   ("scenario_question", .vstr ""),
   ("responses", .vjson (Json.obj [])),
   ("detailed_report", .vjson (Json.obj [])),
   ("assessment_engine", .vengine none),
   ("start_time", .vtime none),
   ("current_question_index", .vnat 0)]

/-- `initialize_session_state`: for each default, set it only when the
    key is not already present. -/
def initializeSessionState (st : Store) : Store :=
  sessionDefaults.foldl
    (fun acc kv => if storeHas acc kv.1 then acc else acc ++ [kv]) st

/-- The `new_assessment` button handler (app.py 1579-1586): read the
    engine, delete every session key, re-run initialization on the now
    empty store, and restore the engine.  `none` if the engine key is
    absent (the attribute read would raise; it never is in the complete
    phase, where initialization has run). -/
def newAssessmentReset (st : Store) : Option Store :=
  (storeLookup st "assessment_engine").map fun engine =>
    storeSet (initializeSessionState []) "assessment_engine" engine

/-! ### Profile form submission (`display_user_profile`, app.py 1181-1195) -/

/-- The profile-form fields.  Only the four text/select fields checked by
    `required_fields` can be empty; the numeric and selectbox fields
    always carry a value. -/
structure ProfileForm where
  name : String
  age : Nat
  experienceYears : Nat
  currentPosition : String
  industry : String
  country : String
  teamSize : String
  leadershipExperience : Nat
  companySize : String
  education : String
  currentChallenges : String

/-- The slice of the workflow state touched by profile submission. -/
structure WizardState where
  phase : String
  userProfile : Option ProfileForm

/-- The submit handler: `if not all([name, current_position, industry,
    country])` show an error and change nothing, else store the profile
    and move to `yes_no`.  Second component: whether the error was shown. -/
def submitProfile (st : WizardState) (f : ProfileForm) : WizardState × Bool :=
  if f.name = "" ∨ f.currentPosition = "" ∨ f.industry = "" ∨ f.country = "" then
    (st, true)
  else
    ({ phase := "yes_no", userProfile := some f }, false)

/-! ### Scenario submission (`display_scenario_assessment`, app.py 1330-1368) -/

/-- The word count the page displays: `len(response.split())`. -/
def pyWordCount (response : String) : Nat :=
  (pySplit response).length

/-- The slice of the workflow state touched by scenario submission. -/
structure ScenarioPhaseState where
  phase : String
  detailedReport : Json

/-- The `Generate Detailed Report` button handler: the gate is
    `len(response.strip()) < 100` — the *character* count of the stripped
    response — on failure an error is shown and the phase is unchanged;
    otherwise report generation runs, and on success the report is stored
    and the phase becomes `complete` (on generation failure an error is
    shown and the phase is unchanged).  Second component: error shown. -/
def scenarioSubmit (st : ScenarioPhaseState) (response : String)
    (genResult : Except String Json) : ScenarioPhaseState × Bool :=
  if (pyStrip response).length < 100 then
    (st, true)
  else
    match genResult with
    | .ok report => ({ phase := "complete", detailedReport := report }, false)
    | .error _ => (st, true)

/-! ### Question-phase rendering (`display_yes_no_assessment` app.py
    1197-1242, `display_mcq_assessment` app.py 1244-1296,
    `display_scenario_assessment` app.py 1298-1330) -/

/-- A Yes/No/Maybe question as cached in `st.session_state`. -/
structure QYN where
  question : String
  pillar : String

/-- An MCQ question as cached in `st.session_state`. -/
structure QMCQ where
  question : String
  pillar : String
  options : List String

/-- The assessment slice of the session state used by the three
    question phases: the cached question stores and the answer stores
    (`responses['yes_no']`, `responses['mcq']`, `responses['scenario']`). -/
structure AssessState where
  ynQuestions : List QYN
  mcqQuestions : List QMCQ
  scenarioQ : String
  ynAnswers : List (String × String)
  mcqAnswers : List (String × String)
  scenarioAnswer : Option String

/-- Answer-store lookup (`responses[...]` dicts). -/
def lookupA : List (String × String) → String → Option String
  | [], _ => none
  | (k1, v) :: t, k => if k1 = k then some v else lookupA t k

/-- Answer-store update, preserving insertion order. -/
def setA : List (String × String) → String → String → List (String × String)
  | [], k, v => [(k, v)]
  | (k1, v1) :: t, k, v =>
    if k1 = k then (k1, v) :: t else (k1, v1) :: setA t k v

/-- CONTENT[lang] labels used as the Yes/No/Maybe radio choices. -/
def contentYes (lang : String) : String := if lang = "ar" then "نعم" else "Yes"

def contentNo (lang : String) : String := if lang = "ar" then "لا" else "No"

def contentMaybe (lang : String) : String := if lang = "ar" then "ربما" else "Maybe"

/-- The radio choice list of the Yes/No/Maybe phase. -/
def ynChoices (lang : String) : List String :=
  [contentYes lang, contentNo lang, contentMaybe lang]

/-- `st.radio(choices, index=...)` semantics: the default index is `0`
    when no stored answer exists, else `choices.index(stored)` (raising
    `ValueError` when the stored answer is not among the choices); the
    widget returns the user's current selection — the default when the
    user did not interact (`sel = none`), else the picked choice. -/
def radioVal (choices : List String) : Option String → Option Nat → Except String String
  | none, none => .ok (choices.headD "")
  | none, some j => .ok (choices.getD j (choices.headD ""))
  | some v, none =>
    if choices.contains v then .ok v
    else .error "ValueError: value is not in list"
  | some v, some j =>
    if choices.contains v then .ok (choices.getD j v)
    else .error "ValueError: value is not in list"

/-- The `for i, q in enumerate(questions)` display loop shared by the
    yes_no and mcq phases: for each question, read the stored answer at
    key `q{i}`, show a radio with that default, and immediately write the
    selection back.  `choicesOf` yields each question's radio options
    (the fixed Yes/No/Maybe labels, or the question's own `options`). -/
def renderQLoop {α : Type} (choicesOf : α → List String) (sel : Nat → Option Nat) :
    Nat → List α → List (String × String) → Except String (List (String × String))
  | _, [], answers => .ok answers
  | i, q :: qs, answers => do
    let stored := lookupA answers ("q" ++ toString i)
    let v ← radioVal (choicesOf q) stored (sel i)
    renderQLoop choicesOf sel (i + 1) qs (setA answers ("q" ++ toString i) v)

/-- `display_yes_no_assessment`: when the question store is empty, invoke
    the generator (`genYN` is its outcome); on failure show the error and
    return with nothing else changed; on success cache the questions.
    Then run the display loop over the cached questions and store the
    answers.  Second component of the result: whether the generator was
    invoked during this render. -/
def renderYesNo (lang : String) (genYN : Except String (List QYN))
    (sel : Nat → Option Nat) (st : AssessState) :
    Except String (AssessState × Bool) :=
  if st.ynQuestions.isEmpty then
    match genYN with
    | .error _ => .ok (st, true)
    | .ok qs => do
      let answers ← renderQLoop (fun _ => ynChoices lang) sel 0 qs st.ynAnswers
      .ok ({ st with ynQuestions := qs, ynAnswers := answers }, true)
  else do
    let answers ← renderQLoop (fun _ => ynChoices lang) sel 0 st.ynQuestions st.ynAnswers
    .ok ({ st with ynAnswers := answers }, false)

/-- `display_mcq_assessment`: same structure as the yes_no phase, with
    each question's own `options` as the radio choices. -/
def renderMcq (genM : Except String (List QMCQ)) (sel : Nat → Option Nat)
    (st : AssessState) : Except String (AssessState × Bool) :=
  if st.mcqQuestions.isEmpty then
    match genM with
    | .error _ => .ok (st, true)
    | .ok qs => do
      let answers ← renderQLoop (fun q => q.options) sel 0 qs st.mcqAnswers
      .ok ({ st with mcqQuestions := qs, mcqAnswers := answers }, true)
  else do
    let answers ← renderQLoop (fun q => q.options) sel 0 st.mcqQuestions st.mcqAnswers
    .ok ({ st with mcqAnswers := answers }, false)

/-- `display_scenario_assessment` (the rendering part, before the
    buttons): when the scenario store is the empty string, invoke the
    scenario generator; on failure show the error and return; on success
    cache the scenario text.  Then show the text area whose value is
    `responses.get('scenario', '')` — `typed = none` models the user not
    editing — and write the current content back immediately.  Second
    component: whether the generator was invoked. -/
def renderScenario (genS : Except String String) (typed : Option String)
    (st : AssessState) : AssessState × Bool :=
  if st.scenarioQ = "" then
    match genS with
    | .error _ => (st, true)
    | .ok s =>
      ({ st with scenarioQ := s,
                 scenarioAnswer := some (typed.getD (st.scenarioAnswer.getD "")) }, true)
  else
    ({ st with scenarioAnswer := some (typed.getD (st.scenarioAnswer.getD "")) }, false)

/-! ### Concrete inputs used by the theorems below -/

/-- A scenario answer of five 30-letter words: 154 characters but only
    5 words. -/
def fiveWordAnswer : String :=
  String.intercalate " " (List.replicate 5 (⟨List.replicate 30 'a'⟩ : String))

/-- A Yes/No/Maybe item with empty `question` and `pillar` values. -/
def ynEmptyItem : Json :=
  Json.obj [("question", .str ""), ("pillar", .str "")]

/-- A model reply of 7 items whose `question`/`pillar` values are empty. -/
def ynEmptyReply : String :=
  "[" ++ String.intercalate ", "
    (List.replicate 7 "\x7b\"question\": \"\", \"pillar\": \"\"\x7d") ++ "]"

/-- A well-formed Yes/No/Maybe item. -/
def ynGoodItem : Json :=
  Json.obj [("question", .str "Do you set direction?"), ("pillar", .str "Strategic Thinking")]

/-- A compliant Yes/No/Maybe model reply of 7 items. -/
def ynGoodReply : String :=
  "[" ++ String.intercalate ", "
    (List.replicate 7
      "\x7b\"question\": \"Do you set direction?\", \"pillar\": \"Strategic Thinking\"\x7d") ++ "]"

/-- An `options` value that is a 4-entry mapping, not a sequence. -/
def mcqDictOptions : Json :=
  Json.obj [("a", .str "w"), ("b", .str "x"), ("c", .str "y"), ("d", .str "z")]

/-- An MCQ item whose `options` is the 4-entry mapping above. -/
def mcqDictItem : Json :=
  Json.obj [("question", .str "Q"), ("pillar", .str "P"), ("options", mcqDictOptions)]

/-- A model reply of 7 MCQ items whose `options` are 4-entry mappings. -/
def mcqDictReply : String :=
  "[" ++ String.intercalate ", "
    (List.replicate 7
      ("\x7b\"question\": \"Q\", \"pillar\": \"P\", \"options\": " ++
       "\x7b\"a\": \"w\", \"b\": \"x\", \"c\": \"y\", \"d\": \"z\"\x7d\x7d")) ++ "]"

/-- A compliant MCQ model reply of 7 items with 4-option lists. -/
def mcqGoodReply : String :=
  "[" ++ String.intercalate ", "
    (List.replicate 7
      ("\x7b\"question\": \"Q\", \"pillar\": \"P\", \"options\": " ++
       "[\"A\", \"B\", \"C\", \"D\"]\x7d")) ++ "]"

/-- A well-formed per-pillar breakdown with in-range scores. -/
def pillarBreak : Json :=
  Json.obj (pillarsEn.map (fun p =>
    (p, Json.obj [("score", Json.num 8), ("analysis", Json.str "a"),
                  ("evidence_from_responses", Json.arr [])])))

/-- A parsed report reply carrying every required top-level key except
    `overall_leadership_score`. -/
def reportMissingOverall : Json := Json.obj [
  ("report_title", .str "T"), ("executive_summary", .str "S"),
  ("leadership_profile_breakdown", pillarBreak),
  ("overall_strengths", .str "A"), ("overall_development_areas", .str "B"),
  ("detailed_insights_from_response_types", .obj []),
  ("personalized_recommendations", .arr []),
  ("personal_development_plan", .obj []),
  ("cultural_and_industry_nuances", .str "C"), ("closing_remarks", .str "D")]

/-- The profile of the spec's end-to-end example. -/
def aminaForm : ProfileForm :=
  ⟨"Amina", 30, 5, "Engineering Manager", "Technology", "Jordan",
   "1-5", 2, "Startup (1-50)", "Bachelor's", ""⟩

/-- A session store as it looks in the complete phase. -/
def completeStore : Store :=
  [("language", .vstr "ar"), ("assessment_phase", .vstr "complete"),
   ("user_profile", .vjson (Json.obj [("name", .str "Amina")])),
   ("assessment_engine", .vengine (some 7))]

/-- A one-question Yes/No list. -/
def sampleYN : List QYN := [⟨"Q1", "Strategic Thinking"⟩]

/-- A one-question MCQ list. -/
def sampleMCQ : List QMCQ := [⟨"Q1", "P1", ["A", "B", "C", "D"]⟩]

/-- The empty assessment slice (fresh session). -/
def freshAssess : AssessState := ⟨[], [], "", [], [], none⟩

/-- An assessment slice where every phase already has cached content and
    stored answers. -/
def visitedAssess : AssessState :=
  ⟨sampleYN, sampleMCQ, "The scenario text",
   [("q0", "No")], [("q0", "C")], some "my answer"⟩

/-! ### Claim C1 -/

/-- Claim C1 (code_bug evidence): the submit gate of the scenario phase
    counts *characters*, not words.  `fiveWordAnswer` has only 5 words —
    far below the 100-word floor the spec (and the page's own error and
    word-count messages) state — yet its stripped length is 154 ≥ 100
    characters, so the handler transitions `scenario → complete`. -/
theorem c1_scenario_gate_failing_input :
    pyWordCount fiveWordAnswer = 5 ∧
    (pyStrip fiveWordAnswer).length = 154 ∧
    scenarioSubmit ⟨"scenario", Json.obj []⟩ fiveWordAnswer (.ok (Json.obj [])) =
      (⟨"complete", Json.obj []⟩, false) :=
  ⟨rfl, rfl, rfl⟩

/-! ### Claim C3 -/

/-- Claim C3 (code_bug evidence): the report validator is meant to
    tolerate any missing top-level key by substituting a placeholder
    string, but when `overall_leadership_score` itself is the missing
    key the placeholder is a *string*, the subsequent
    `'score' in detailed_report['overall_leadership_score']` is a
    substring test (true, since the placeholder names the key, which
    contains `score`), and indexing the string with `['score']` raises
    `TypeError` — so generation fails instead of succeeding with a
    placeholder. -/
theorem c3_missing_overall_failing_input :
    pyInStr "overall_leadership_score" reportMissingOverall = .ok false ∧
    validateDetailedReport reportMissingOverall =
      .error "TypeError: string indices must be integers" :=
  ⟨rfl, rfl⟩

/-! ### Claim C4 -/

/-- Claim C4: the generation client makes at most 3 attempts (only the
    first three oracle answers matter); every failed attempt that is
    retried is followed by a `2 ^ attempt` backoff sleep; exhausting all
    attempts raises a failure carrying the last error; and when the call
    fails twice and succeeds on the third attempt, the (stripped)
    successful text is returned after exactly two backoff sleeps
    (durations 1 and 2). -/
theorem c4_retry_policy :
    (∀ o1 o2 : Nat → ApiResult, o1 0 = o2 0 → o1 1 = o2 1 → o1 2 = o2 2 →
      makeApiCallWithRetry o1 = makeApiCallWithRetry o2) ∧
    (∀ e0 e1 e2 : String,
      makeApiCallWithRetry (oracle3 (.raised e0) (.raised e1) (.raised e2)) =
        (.error ("API call failed after 3 attempts: " ++ e2), [1, 2])) ∧
    (∀ e0 e1 t : String, t ≠ "" →
      makeApiCallWithRetry (oracle3 (.raised e0) (.raised e1) (.replied (some t))) =
        (.ok (pyStrip t), [1, 2])) ∧
    (∀ (e0 t : String) (c : ApiResult), t ≠ "" →
      makeApiCallWithRetry (oracle3 (.raised e0) (.replied (some t)) c) =
        (.ok (pyStrip t), [1])) ∧
    (∀ (t : String) (b c : ApiResult), t ≠ "" →
      makeApiCallWithRetry (oracle3 (.replied (some t)) b c) =
        (.ok (pyStrip t), [])) := by
  have hunf : ∀ o : Nat → ApiResult,
      makeApiCallWithRetry o =
        (match attemptOutcome (o 0) with
         | .ok t => (.ok t, ([] : List Nat))
         | .error _ =>
           match attemptOutcome (o 1) with
           | .ok t => (.ok t, [1])
           | .error _ =>
             match attemptOutcome (o 2) with
             | .ok t => (.ok t, [1, 2])
             | .error e =>
               (.error ("API call failed after 3 attempts: " ++ e), [1, 2])) := by
    intro o
    rfl
  refine ⟨?_, ?_, ?_, ?_, ?_⟩
  · intro o1 o2 h0 h1 h2
    rw [hunf o1, hunf o2, h0, h1, h2]
  · intro e0 e1 e2
    rw [hunf]
    simp [oracle3, attemptOutcome]
  · intro e0 e1 t ht
    rw [hunf]
    simp [oracle3, attemptOutcome, ht]
  · intro e0 t c ht
    rw [hunf]
    simp [oracle3, attemptOutcome, ht]
  · intro t b c ht
    rw [hunf]
    simp [oracle3, attemptOutcome, ht]

/-- Witness for C4 at concrete inputs: two raised calls followed by a
    successful reply are returned stripped after sleeps `[1, 2]`, and
    three raised calls exhaust the attempts carrying the last error. -/
theorem c4_retry_policy_witness :
    makeApiCallWithRetry
        (oracle3 (.raised "boom1") (.raised "boom2") (.replied (some " text "))) =
      (.ok "text", [1, 2]) ∧
    makeApiCallWithRetry (oracle3 (.raised "a") (.raised "b") (.raised "c")) =
      (.error "API call failed after 3 attempts: c", [1, 2]) := by
  constructor
  · have h := c4_retry_policy.2.2.1 "boom1" "boom2" " text " (by decide)
    exact h.trans (by rfl)
  · exact c4_retry_policy.2.1 "a" "b" "c"

/-! ### Claim C7 -/

/-- Claim C7: from the profile phase, submission moves to `yes_no` iff
    name, position, industry, and country are all non-empty; otherwise
    the phase is unchanged, an error is shown, and the whole state —
    including the profile store — is untouched. -/
theorem c7_profile_transition :
    ∀ (st : WizardState) (f : ProfileForm), st.phase = "profile" →
      (((submitProfile st f).1.phase = "yes_no") ↔
        (f.name ≠ "" ∧ f.currentPosition ≠ "" ∧ f.industry ≠ "" ∧ f.country ≠ "")) ∧
      ((f.name = "" ∨ f.currentPosition = "" ∨ f.industry = "" ∨ f.country = "") →
        submitProfile st f = (st, true)) ∧
      ((f.name ≠ "" ∧ f.currentPosition ≠ "" ∧ f.industry ≠ "" ∧ f.country ≠ "") →
        submitProfile st f = (⟨"yes_no", some f⟩, false)) := by
  intro st f hphase
  by_cases hmiss : f.name = "" ∨ f.currentPosition = "" ∨ f.industry = "" ∨ f.country = ""
  · have hres : submitProfile st f = (st, true) := by
      unfold submitProfile
      simp [hmiss]
    refine ⟨?_, fun _ => hres, ?_⟩
    · rw [hres]
      simp only [hphase]
      constructor
      · intro h
        exact absurd h (by decide)
      · intro h
        rcases hmiss with h1 | h1 | h1 | h1
        · exact absurd h1 h.1
        · exact absurd h1 h.2.1
        · exact absurd h1 h.2.2.1
        · exact absurd h1 h.2.2.2
    · intro h
      rcases hmiss with h1 | h1 | h1 | h1
      · exact absurd h1 h.1
      · exact absurd h1 h.2.1
      · exact absurd h1 h.2.2.1
      · exact absurd h1 h.2.2.2
  · have hres : submitProfile st f = (⟨"yes_no", some f⟩, false) := by
      unfold submitProfile
      simp [hmiss]
    push_neg at hmiss
    refine ⟨?_, ?_, fun _ => hres⟩
    · rw [hres]
      simpa using hmiss
    · intro h
      rcases h with h1 | h1 | h1 | h1
      · exact absurd h1 hmiss.1
      · exact absurd h1 hmiss.2.1
      · exact absurd h1 hmiss.2.2.1
      · exact absurd h1 hmiss.2.2.2

/-- Witness for C7 at the spec's example profile: all four required
    fields are non-empty and submission advances to `yes_no`, storing
    the profile; with the name blanked, the state is untouched and an
    error is shown. -/
theorem c7_profile_transition_witness :
    submitProfile ⟨"profile", none⟩ aminaForm = (⟨"yes_no", some aminaForm⟩, false) ∧
    submitProfile ⟨"profile", none⟩ { aminaForm with name := "" } =
      (⟨"profile", none⟩, true) := by
  constructor
  · exact (c7_profile_transition ⟨"profile", none⟩ aminaForm rfl).2.2
      ⟨by decide, by decide, by decide, by decide⟩
  · exact (c7_profile_transition ⟨"profile", none⟩ { aminaForm with name := "" } rfl).2.1
      (Or.inl rfl)

/-! ### Claim C9 -/

/-- Claim C9: the `new assessment` action resets every session key to
    its initial default (phase `setup`, empty profile, question, answer,
    report, and timing stores, language back to `en`, question index 0)
    while the Generation Client engine instance is the single value
    retained unchanged; no other key survives the reset. -/
theorem c9_new_assessment_reset :
    ∀ (st : Store) (e : SVal), storeLookup st "assessment_engine" = some e →
      ∃ st2, newAssessmentReset st = some st2 ∧
        storeLookup st2 "language" = some (.vstr "en") ∧
        storeLookup st2 "assessment_phase" = some (.vstr "setup") ∧
        storeLookup st2 "user_profile" = some (.vjson (Json.obj [])) ∧
        storeLookup st2 "yes_no_questions" = some (.vjson (Json.arr [])) ∧
        storeLookup st2 "mcq_questions" = some (.vjson (Json.arr [])) ∧
        storeLookup st2 "scenario_question" = some (.vstr "") ∧
        storeLookup st2 "responses" = some (.vjson (Json.obj [])) ∧
        storeLookup st2 "detailed_report" = some (.vjson (Json.obj [])) ∧
        storeLookup st2 "start_time" = some (.vtime none) ∧
        storeLookup st2 "current_question_index" = some (.vnat 0) ∧
        storeLookup st2 "assessment_engine" = some e ∧
        st2.length = sessionDefaults.length := by
  intro st e h
  refine ⟨storeSet (initializeSessionState []) "assessment_engine" e, ?_,
    rfl, rfl, rfl, rfl, rfl, rfl, rfl, rfl, rfl, rfl, rfl, rfl⟩
  simp [newAssessmentReset, h]

/-- Witness for C9: resetting a concrete complete-phase store (Arabic
    language, stored profile, engine instance 7) yields the defaults
    with the engine retained. -/
theorem c9_new_assessment_reset_witness :
    ∃ st2, newAssessmentReset completeStore = some st2 ∧
      storeLookup st2 "assessment_phase" = some (.vstr "setup") ∧
      storeLookup st2 "language" = some (.vstr "en") ∧
      storeLookup st2 "assessment_engine" = some (.vengine (some 7)) := by
  obtain ⟨st2, h1, hlang, hphase, _, _, _, _, _, _, _, _, hengine, _⟩ :=
    c9_new_assessment_reset completeStore (.vengine (some 7)) rfl
  exact ⟨st2, h1, hphase, hlang, hengine⟩

/-! ### Claim C5 -/

/-- A character list without an occurrence of `tok` neither starts with
    it nor contains it further right. -/
theorem listContainsTok_cons_false {tok : List Char} {c : Char} {rest : List Char}
    (h : listContainsTok tok (c :: rest) = false) :
    tok.isPrefixOf (c :: rest) = false ∧ listContainsTok tok rest = false := by
  unfold listContainsTok at h
  exact Bool.or_eq_false_iff.mp h

/-- The single-pass token removal is the identity on strings that do not
    contain the token. -/
theorem removeTokGo_id (tok : List Char) :
    ∀ (fuel : Nat) (cs : List Char), listContainsTok tok cs = false →
      removeTokGo tok fuel cs = cs := by
  intro fuel
  induction fuel with
  | zero => intro cs _; rfl
  | succ n ih =>
    intro cs hc
    cases cs with
    | nil => rfl
    | cons c rest =>
      obtain ⟨hnp, hrest⟩ := listContainsTok_cons_false hc
      rw [show removeTokGo tok (n + 1) (c :: rest) =
            (if tok ≠ [] ∧ tok.isPrefixOf (c :: rest) then
              removeTokGo tok n (dropOneNL ((c :: rest).drop tok.length))
            else c :: removeTokGo tok n rest) from rfl]
      rw [if_neg (by simp [hnp])]
      rw [ih rest hrest]

/-- `re.sub(tok + r'\n?', '', s)` leaves `s` unchanged when `s` does not
    contain `tok`. -/
theorem removeTokenNL_id (tok s : String) (h : strContains s tok = false) :
    removeTokenNL tok s = s := by
  unfold removeTokenNL
  rw [removeTokGo_id tok.data s.data.length s.data h]

/-- On raw text containing neither of the two removal tokens, the
    cleaning pass of `_clean_and_parse_json` only strips surrounding
    whitespace. -/
theorem cleanText_eq_strip (raw : String)
    (h1 : strContains raw "json" = false) (h2 : strContains raw "```" = false) :
    cleanText raw = pyStrip raw := by
  unfold cleanText
  rw [removeTokenNL_id "json" raw h1, removeTokenNL_id "```" raw h2]

/-- Claim C5 counterexample: on the raw model output `"json"` — a valid
    JSON document (a string literal) with no code-fence or markdown
    wrapping — the spec-described parser (strip wrapping/whitespace,
    then strict decode) yields the string `json`, but the code's
    cleaning pass deletes the characters `json` *inside the payload*
    and the parser returns the empty string: the payload was altered. -/
theorem c5_counterexample :
    specParse "\"json\"" = .ok (Json.str "json") ∧
    cleanAndParseJson "\"json\"" = .ok (Json.str "") ∧
    Json.str "json" ≠ Json.str "" := by
  refine ⟨rfl, rfl, ?_⟩
  intro h
  injection h with h2
  exact absurd h2 (by decide)

/-- Claim C5 as amended: the parser deletes every occurrence of the
    substrings `json` and ``` ``` ``` (each with an optional following
    newline) anywhere in the text — which can alter payload content —
    then trims surrounding whitespace and strictly JSON-decodes the
    remainder, failing on invalid JSON with no semantic repair.  For raw
    text containing neither substring it therefore only trims
    surrounding whitespace and strictly decodes. -/
theorem c5_amended (raw : String)
    (h1 : strContains raw "json" = false) (h2 : strContains raw "```" = false) :
    cleanAndParseJson raw =
      (match jsonDecode (pyStrip raw) with
       | .ok v => .ok v
       | .error e => .error ("Failed to parse AI response as JSON: " ++ e)) := by
  unfold cleanAndParseJson
  rw [cleanText_eq_strip raw h1 h2]

/-- Witness for C5 (amended): concrete unfenced raw text is decoded
    strictly after whitespace trimming only. -/
theorem c5_amended_witness :
    cleanAndParseJson "  true " = .ok (Json.bool true) ∧
    cleanAndParseJson " not valid " =
      .error "Failed to parse AI response as JSON: Expecting value" := by
  constructor
  · exact (c5_amended "  true " rfl rfl).trans rfl
  · exact (c5_amended " not valid " rfl rfl).trans rfl

/-! ### Claim C2 -/

/-- Claim C2 counterexample: a model reply of 7 items whose `question`
    and `pillar` values are all *empty* strings passes the Yes/No/Maybe
    generator's validation and is returned as-is — the generator checks
    key presence only, never non-emptiness, contradicting the claim that
    every returned item has non-empty fields. -/
theorem c2_counterexample :
    generateYesNoFromReply ynEmptyReply = .ok (List.replicate 7 ynEmptyItem) ∧
    pyGet ynEmptyItem "question" = .ok (Json.str "") ∧
    pyGet ynEmptyItem "pillar" = .ok (Json.str "") :=
  ⟨rfl, rfl, rfl⟩

/-- A successful Yes/No/Maybe shape validation forces exactly 7 items,
    each passing the per-item check. -/
theorem validateYesNoShape_ok :
    ∀ (j : Json) (qs : List Json), validateYesNoShape j = .ok qs →
      qs.length = 7 ∧ ∀ q ∈ qs, ynItemOk q = true := by
  intro j qs h
  cases j with
  | arr xs =>
    simp only [validateYesNoShape] at h
    by_cases hl : xs.length = 7
    · rw [if_neg (fun hn => hn hl)] at h
      by_cases ha : xs.all ynItemOk = true
      · rw [if_pos ha] at h
        injection h with h2
        subst h2
        exact ⟨hl, List.all_eq_true.mp ha⟩
      · rw [if_neg ha] at h
        exact absurd h (by simp)
    · rw [if_pos hl] at h
      exact absurd h (by simp)
  | null => exact absurd h (by simp [validateYesNoShape])
  | bool b => exact absurd h (by simp [validateYesNoShape])
  | num n => exact absurd h (by simp [validateYesNoShape])
  | str s => exact absurd h (by simp [validateYesNoShape])
  | obj kvs => exact absurd h (by simp [validateYesNoShape])

/-- Claim C2 as amended: for every model reply, the Yes/No/Maybe
    generator either raises or returns exactly 7 items, each of which is
    a dict carrying the keys `question` and `pillar`; the values are not
    inspected and may be empty strings or non-strings. -/
theorem c2_amended :
    ∀ (reply : String) (qs : List Json), generateYesNoFromReply reply = .ok qs →
      qs.length = 7 ∧ ∀ q ∈ qs, ∃ kvs, q = Json.obj kvs ∧
        hasKey kvs "question" = true ∧ hasKey kvs "pillar" = true := by
  intro reply qs h
  cases hp : cleanAndParseJson reply with
  | error e =>
    unfold generateYesNoFromReply at h
    rw [hp] at h
    exact Except.noConfusion
      (show (Except.error e : Except String (List Json)) = .ok qs from h)
  | ok j =>
    unfold generateYesNoFromReply at h
    rw [hp] at h
    have hv : validateYesNoShape j = .ok qs := h
    have hok := validateYesNoShape_ok j qs hv
    refine ⟨hok.1, ?_⟩
    intro q hq
    have hitem := hok.2 q hq
    cases q with
    | obj kvs =>
      have hb : hasKey kvs "question" = true ∧ hasKey kvs "pillar" = true := by
        have hb0 : (hasKey kvs "question" && hasKey kvs "pillar") = true := hitem
        simpa using hb0
      exact ⟨kvs, rfl, hb.1, hb.2⟩
    | null => exact absurd hitem (by simp [ynItemOk])
    | bool b => exact absurd hitem (by simp [ynItemOk])
    | num n => exact absurd hitem (by simp [ynItemOk])
    | str s => exact absurd hitem (by simp [ynItemOk])
    | arr l => exact absurd hitem (by simp [ynItemOk])

/-- Witness for C2 (amended): a compliant reply yields exactly 7 items. -/
theorem c2_amended_witness :
    ∃ qs, generateYesNoFromReply ynGoodReply = .ok qs ∧ qs.length = 7 := by
  have h := c2_amended ynGoodReply (List.replicate 7 ynGoodItem) rfl
  exact ⟨List.replicate 7 ynGoodItem, rfl, h.1⟩

/-! ### Claim C6 -/

/-- The MCQ validation loop succeeding means every item's check
    succeeded. -/
theorem checkAllMcq_ok :
    ∀ l : List Json, checkAllMcq l = .ok () → ∀ q ∈ l, checkMcqItem q = .ok () := by
  intro l
  induction l with
  | nil =>
    intro _ q hq
    exact absurd hq (List.not_mem_nil q)
  | cons a t ih =>
    intro h q hq
    cases hfa : checkMcqItem a with
    | error e =>
      exfalso
      unfold checkAllMcq at h
      rw [hfa] at h
      exact Except.noConfusion
        (show (Except.error e : Except String Unit) = .ok () from h)
    | ok u =>
      unfold checkAllMcq at h
      rw [hfa] at h
      have h2 : checkAllMcq t = .ok () := h
      rcases List.mem_cons.mp hq with rfl | hq2
      · cases u; exact hfa
      · exact ih h2 q hq2

/-- A dict with key `k` has a binding for `k`. -/
theorem objLookup_of_hasKey :
    ∀ {kvs : List (String × Json)} {k : String}, hasKey kvs k = true →
      ∃ v, objLookup kvs k = some v := by
  intro kvs
  induction kvs with
  | nil => intro k h; simp [hasKey] at h
  | cons p t ih =>
    intro k h
    cases hpk : (p.1 == k) with
    | true => exact ⟨p.2, by simp [objLookup, List.find?, hpk]⟩
    | false =>
      have h2 : hasKey t k = true := by
        simpa [hasKey, hpk] using h
      obtain ⟨v, hv⟩ := ih h2
      refine ⟨v, ?_⟩
      simpa [objLookup, List.find?, hpk] using hv

/-- A successful MCQ item check forces the item to be a dict with the
    three required keys whose `options` value has Python length 4. -/
theorem checkMcqItem_ok :
    ∀ q : Json, checkMcqItem q = .ok () →
      ∃ kvs, q = Json.obj kvs ∧ hasKey kvs "question" = true ∧
        hasKey kvs "options" = true ∧ hasKey kvs "pillar" = true ∧
        ∃ opts, objLookup kvs "options" = some opts ∧ pyLen opts = .ok 4 := by
  intro q h
  cases q with
  | null =>
    exact Except.noConfusion
      (show (Except.error "TypeError: argument is not iterable" : Except String Unit) = .ok () from h)
  | bool b =>
    exact Except.noConfusion
      (show (Except.error "TypeError: argument is not iterable" : Except String Unit) = .ok () from h)
  | num n =>
    exact Except.noConfusion
      (show (Except.error "TypeError: argument is not iterable" : Except String Unit) = .ok () from h)
  | str s =>
    cases c1 : strContains s "question" <;>
      cases c2 : strContains s "options" <;>
        cases c3 : strContains s "pillar" <;>
          simp [checkMcqItem, pyInStr, pyGet, bind, Except.bind, pure, Except.pure,
            c1, c2, c3] at h
  | arr l =>
    cases c1 : l.any (eqStrElem "question") <;>
      cases c2 : l.any (eqStrElem "options") <;>
        cases c3 : l.any (eqStrElem "pillar") <;>
          simp [checkMcqItem, pyInStr, pyGet, bind, Except.bind, pure, Except.pure,
            c1, c2, c3] at h
  | obj kvs =>
    cases c1 : hasKey kvs "question" with
    | false =>
      simp [checkMcqItem, pyInStr, bind, Except.bind, pure, Except.pure, c1] at h
    | true =>
      cases c2 : hasKey kvs "options" with
      | false =>
        simp [checkMcqItem, pyInStr, bind, Except.bind, pure, Except.pure, c1, c2] at h
      | true =>
        cases c3 : hasKey kvs "pillar" with
        | false =>
          simp [checkMcqItem, pyInStr, bind, Except.bind, pure, Except.pure, c1, c2, c3] at h
        | true =>
          obtain ⟨opts, hopts⟩ := objLookup_of_hasKey c2
          refine ⟨kvs, rfl, c1, c2, c3, opts, hopts, ?_⟩
          simp only [checkMcqItem, pyInStr, pyGet, bind, Except.bind, pure, Except.pure] at h
          rw [c1, c2, c3, hopts] at h
          simp only [Bool.and_self, Bool.not_true, if_true, if_false, reduceIte] at h
          cases hlen : pyLen opts with
          | error e =>
            rw [hlen] at h
            exact absurd
              (show (Except.error e : Except String Unit) = .ok () from h) (by simp)
          | ok n =>
            rw [hlen] at h
            have h2 : (if n ≠ 4 then (Except.error "MCQ must have exactly 4 options" :
                Except String Unit) else .ok ()) = .ok () := h
            by_cases hn : n = 4
            · rw [hn]
            · rw [if_pos hn] at h2
              exact absurd h2 (by simp)

/-- Claim C6 counterexample: a model reply whose every item carries an
    `options` value that is a 4-entry *mapping* — not a sequence at all,
    let alone a sequence of 4 strings — passes the MCQ generator's
    validation (only `len(q['options']) == 4` is checked) and is
    returned. -/
theorem c6_counterexample :
    generateMcqFromReply mcqDictReply = .ok (List.replicate 7 mcqDictItem) ∧
    pyGet mcqDictItem "options" = .ok mcqDictOptions ∧
    (∀ xs : List Json, mcqDictOptions ≠ Json.arr xs) ∧
    pyLen mcqDictOptions = .ok 4 := by
  refine ⟨rfl, rfl, ?_, rfl⟩
  intro xs h
  exact Json.noConfusion h

/-- Claim C6 as amended: for every model reply, the MCQ generator either
    raises or returns exactly 7 items, each a dict carrying `question`,
    `pillar`, and `options` keys whose `options` value has Python
    length exactly 4 (it need not be a sequence, nor hold strings). -/
theorem c6_amended :
    ∀ (reply : String) (qs : List Json), generateMcqFromReply reply = .ok qs →
      qs.length = 7 ∧ ∀ q ∈ qs, ∃ kvs, q = Json.obj kvs ∧
        hasKey kvs "question" = true ∧ hasKey kvs "options" = true ∧
        hasKey kvs "pillar" = true ∧
        ∃ opts, objLookup kvs "options" = some opts ∧ pyLen opts = .ok 4 := by
  intro reply qs h
  cases hp : cleanAndParseJson reply with
  | error e =>
    unfold generateMcqFromReply at h
    rw [hp] at h
    exact Except.noConfusion
      (show (Except.error e : Except String (List Json)) = .ok qs from h)
  | ok j =>
    unfold generateMcqFromReply at h
    rw [hp] at h
    have hv : validateMcqShape j = .ok qs := h
    cases j with
    | arr xs =>
      simp only [validateMcqShape] at hv
      by_cases hl : xs.length = 7
      · rw [if_neg (fun hn => hn hl)] at hv
        cases hf : checkAllMcq xs with
        | error e =>
          rw [hf] at hv
          exact absurd
            (show (Except.error e : Except String (List Json)) = .ok qs from hv)
            (by simp)
        | ok u =>
          rw [hf] at hv
          have h2 : (Except.ok xs : Except String (List Json)) = .ok qs := hv
          injection h2 with h3
          subst h3
          refine ⟨hl, ?_⟩
          intro q hq
          have hitem := checkAllMcq_ok xs (by cases u; exact hf) q hq
          exact checkMcqItem_ok q hitem
      · rw [if_pos hl] at hv
        exact absurd hv (by simp)
    | null => exact absurd hv (by simp [validateMcqShape])
    | bool b => exact absurd hv (by simp [validateMcqShape])
    | num n => exact absurd hv (by simp [validateMcqShape])
    | str s => exact absurd hv (by simp [validateMcqShape])
    | obj kvs => exact absurd hv (by simp [validateMcqShape])

/-- Witness for C6 (amended): a compliant reply with 4-option lists
    yields exactly 7 items. -/
theorem c6_amended_witness :
    ∃ qs, generateMcqFromReply mcqGoodReply = .ok qs ∧ qs.length = 7 := by
  have h := c6_amended mcqGoodReply
    (List.replicate 7 (Json.obj [("question", .str "Q"), ("pillar", .str "P"),
      ("options", Json.arr [.str "A", .str "B", .str "C", .str "D"])])) rfl
  exact ⟨_, rfl, h.1⟩

/-! ### Answer-store and display-loop lemmas (for claims C8, C10) -/

/-- Writing a key makes it readable. -/
theorem lookupA_setA_self :
    ∀ (m : List (String × String)) (k v : String), lookupA (setA m k v) k = some v := by
  intro m k v
  induction m with
  | nil => simp [setA, lookupA]
  | cons p t ih =>
    obtain ⟨k1, v1⟩ := p
    by_cases hp : k1 = k
    · simp [setA, hp, lookupA]
    · simp [setA, hp, lookupA, ih]

/-- Writing a key leaves every other key unchanged. -/
theorem lookupA_setA_other :
    ∀ (m : List (String × String)) (k v k2 : String), k2 ≠ k →
      lookupA (setA m k v) k2 = lookupA m k2 := by
  intro m k v k2 hne
  induction m with
  | nil =>
    simp [setA, lookupA]
    intro he
    exact absurd he.symm hne
  | cons p t ih =>
    obtain ⟨k1, v1⟩ := p
    by_cases hp : k1 = k
    · subst hp
      simp only [setA, lookupA, if_pos rfl]
      rw [if_neg (fun he => hne he.symm), if_neg (fun he => hne he.symm)]
    · simp [setA, hp, lookupA, ih]

/-- The display loop never drops an existing answer key. -/
theorem renderQLoop_preserves {α : Type} (choicesOf : α → List String)
    (sel : Nat → Option Nat) :
    ∀ (qs : List α) (i : Nat) (a a2 : List (String × String)),
      renderQLoop choicesOf sel i qs a = .ok a2 →
      ∀ k, (lookupA a k).isSome = true → (lookupA a2 k).isSome = true := by
  intro qs
  induction qs with
  | nil =>
    intro i a a2 h k hk
    have h2 : (Except.ok a : Except String (List (String × String))) = .ok a2 := h
    injection h2 with h3
    subst h3
    exact hk
  | cons q qt ih =>
    intro i a a2 h k hk
    have h2 : (radioVal (choicesOf q) (lookupA a ("q" ++ toString i)) (sel i) >>=
        fun v => renderQLoop choicesOf sel (i + 1) qt
          (setA a ("q" ++ toString i) v)) = .ok a2 := h
    cases hr : radioVal (choicesOf q) (lookupA a ("q" ++ toString i)) (sel i) with
    | error e =>
      rw [hr] at h2
      exact absurd
        (show (Except.error e : Except String (List (String × String))) = .ok a2 from h2)
        (by simp)
    | ok v =>
      rw [hr] at h2
      have h3 : renderQLoop choicesOf sel (i + 1) qt
          (setA a ("q" ++ toString i) v) = .ok a2 := h2
      apply ih (i + 1) _ a2 h3 k
      by_cases hkk : k = "q" ++ toString i
      · subst hkk
        rw [lookupA_setA_self]
        rfl
      · rw [lookupA_setA_other _ _ _ _ hkk]
        exact hk

/-- After the display loop, every looped question index has a stored
    answer. -/
theorem renderQLoop_writes {α : Type} (choicesOf : α → List String)
    (sel : Nat → Option Nat) :
    ∀ (qs : List α) (i : Nat) (a a2 : List (String × String)),
      renderQLoop choicesOf sel i qs a = .ok a2 →
      ∀ j, j < qs.length → (lookupA a2 ("q" ++ toString (i + j))).isSome = true := by
  intro qs
  induction qs with
  | nil =>
    intro i a a2 _ j hj
    exact absurd hj (Nat.not_lt_zero j)
  | cons q qt ih =>
    intro i a a2 h j hj
    have h2 : (radioVal (choicesOf q) (lookupA a ("q" ++ toString i)) (sel i) >>=
        fun v => renderQLoop choicesOf sel (i + 1) qt
          (setA a ("q" ++ toString i) v)) = .ok a2 := h
    cases hr : radioVal (choicesOf q) (lookupA a ("q" ++ toString i)) (sel i) with
    | error e =>
      rw [hr] at h2
      exact absurd
        (show (Except.error e : Except String (List (String × String))) = .ok a2 from h2)
        (by simp)
    | ok v =>
      rw [hr] at h2
      have h3 : renderQLoop choicesOf sel (i + 1) qt
          (setA a ("q" ++ toString i) v) = .ok a2 := h2
      cases j with
      | zero =>
        have hw : (lookupA (setA a ("q" ++ toString i) v) ("q" ++ toString i)).isSome = true := by
          rw [lookupA_setA_self]
          rfl
        have := renderQLoop_preserves choicesOf sel qt (i + 1) _ a2 h3 ("q" ++ toString i) hw
        simpa using this
      | succ j2 =>
        have hj2 : j2 < qt.length := by
          have hj3 := hj
          simp only [List.length_cons] at hj3
          omega
        have harith : i + (j2 + 1) = (i + 1) + j2 := by omega
        rw [harith]
        exact ih (i + 1) _ a2 h3 j2 hj2

/-- Rendering the loop without user interaction preserves every stored
    answer exactly (the radio default is the stored value, which is
    written back unchanged). -/
theorem renderQLoop_idle_preserves {α : Type} (choicesOf : α → List String) :
    ∀ (qs : List α) (i : Nat) (a a2 : List (String × String)),
      renderQLoop choicesOf (fun _ => none) i qs a = .ok a2 →
      ∀ k v, lookupA a k = some v → lookupA a2 k = some v := by
  intro qs
  induction qs with
  | nil =>
    intro i a a2 h k v hk
    have h2 : (Except.ok a : Except String (List (String × String))) = .ok a2 := h
    injection h2 with h3
    subst h3
    exact hk
  | cons q qt ih =>
    intro i a a2 h k v hk
    have h2 : (radioVal (choicesOf q) (lookupA a ("q" ++ toString i)) none >>=
        fun v2 => renderQLoop choicesOf (fun _ => none) (i + 1) qt
          (setA a ("q" ++ toString i) v2)) = .ok a2 := h
    cases hst : lookupA a ("q" ++ toString i) with
    | none =>
      rw [hst] at h2
      have h3 : renderQLoop choicesOf (fun _ => none) (i + 1) qt
          (setA a ("q" ++ toString i) ((choicesOf q).headD "")) = .ok a2 := h2
      apply ih (i + 1) _ a2 h3 k v
      have hkk : k ≠ "q" ++ toString i := by
        intro he
        rw [he, hst] at hk
        exact Option.noConfusion hk
      rw [lookupA_setA_other _ _ _ _ hkk]
      exact hk
    | some w =>
      rw [hst] at h2
      cases hc : (choicesOf q).contains w with
      | false =>
        exfalso
        simp only [radioVal, hc] at h2
        exact Except.noConfusion
          (show (Except.error "ValueError: value is not in list" :
            Except String (List (String × String))) = .ok a2 from h2)
      | true =>
        simp only [radioVal, hc, if_true] at h2
        have h3 : renderQLoop choicesOf (fun _ => none) (i + 1) qt
            (setA a ("q" ++ toString i) w) = .ok a2 := h2
        apply ih (i + 1) _ a2 h3 k v
        by_cases hkk : k = "q" ++ toString i
        · subst hkk
          rw [hst] at hk
          injection hk with hv
          subst hv
          rw [lookupA_setA_self]
        · rw [lookupA_setA_other _ _ _ _ hkk]
          exact hk

/-- Entering the yes_no phase with an empty question store and a
    successful generation caches the questions, runs the loop, and
    reports the generator as invoked. -/
theorem renderYesNo_empty_ok (lang : String) (qs : List QYN) (sel : Nat → Option Nat)
    (mq : List QMCQ) (sq : String) (ya ma : List (String × String))
    (sa : Option String) (r : AssessState × Bool)
    (h : renderYesNo lang (.ok qs) sel ⟨[], mq, sq, ya, ma, sa⟩ = .ok r) :
    ∃ ans, renderQLoop (fun _ => ynChoices lang) sel 0 qs ya = .ok ans ∧
      r = (⟨qs, mq, sq, ans, ma, sa⟩, true) := by
  have h2 : (renderQLoop (fun _ => ynChoices lang) sel 0 qs ya >>=
      fun answers => (Except.ok ((⟨qs, mq, sq, answers, ma, sa⟩ : AssessState), true) :
        Except String (AssessState × Bool))) = .ok r := h
  cases hl : renderQLoop (fun _ => ynChoices lang) sel 0 qs ya with
  | error e =>
    rw [hl] at h2
    exact absurd
      (show (Except.error e : Except String (AssessState × Bool)) = .ok r from h2)
      (by simp)
  | ok ans =>
    rw [hl] at h2
    have h3 : (Except.ok ((⟨qs, mq, sq, ans, ma, sa⟩ : AssessState), true) :
        Except String (AssessState × Bool)) = .ok r := h2
    injection h3 with h4
    exact ⟨ans, rfl, h4.symm⟩

/-- Entering the yes_no phase with cached questions runs the loop only,
    leaves the cache unchanged, and does not invoke the generator. -/
theorem renderYesNo_nonempty_ok (lang : String) (gen : Except String (List QYN))
    (sel : Nat → Option Nat) (q : QYN) (qt : List QYN)
    (mq : List QMCQ) (sq : String) (ya ma : List (String × String))
    (sa : Option String) (r : AssessState × Bool)
    (h : renderYesNo lang gen sel ⟨q :: qt, mq, sq, ya, ma, sa⟩ = .ok r) :
    ∃ ans, renderQLoop (fun _ => ynChoices lang) sel 0 (q :: qt) ya = .ok ans ∧
      r = (⟨q :: qt, mq, sq, ans, ma, sa⟩, false) := by
  have h2 : (renderQLoop (fun _ => ynChoices lang) sel 0 (q :: qt) ya >>=
      fun answers => (Except.ok ((⟨q :: qt, mq, sq, answers, ma, sa⟩ : AssessState), false) :
        Except String (AssessState × Bool))) = .ok r := h
  cases hl : renderQLoop (fun _ => ynChoices lang) sel 0 (q :: qt) ya with
  | error e =>
    rw [hl] at h2
    exact absurd
      (show (Except.error e : Except String (AssessState × Bool)) = .ok r from h2)
      (by simp)
  | ok ans =>
    rw [hl] at h2
    have h3 : (Except.ok ((⟨q :: qt, mq, sq, ans, ma, sa⟩ : AssessState), false) :
        Except String (AssessState × Bool)) = .ok r := h2
    injection h3 with h4
    exact ⟨ans, rfl, h4.symm⟩

/-- MCQ analogue of `renderYesNo_empty_ok`. -/
theorem renderMcq_empty_ok (qs : List QMCQ) (sel : Nat → Option Nat)
    (ynq : List QYN) (sq : String) (ya ma : List (String × String))
    (sa : Option String) (r : AssessState × Bool)
    (h : renderMcq (.ok qs) sel ⟨ynq, [], sq, ya, ma, sa⟩ = .ok r) :
    ∃ ans, renderQLoop (fun q => q.options) sel 0 qs ma = .ok ans ∧
      r = (⟨ynq, qs, sq, ya, ans, sa⟩, true) := by
  have h2 : (renderQLoop (fun q => q.options) sel 0 qs ma >>=
      fun answers => (Except.ok ((⟨ynq, qs, sq, ya, answers, sa⟩ : AssessState), true) :
        Except String (AssessState × Bool))) = .ok r := h
  cases hl : renderQLoop (fun q => q.options) sel 0 qs ma with
  | error e =>
    rw [hl] at h2
    exact absurd
      (show (Except.error e : Except String (AssessState × Bool)) = .ok r from h2)
      (by simp)
  | ok ans =>
    rw [hl] at h2
    have h3 : (Except.ok ((⟨ynq, qs, sq, ya, ans, sa⟩ : AssessState), true) :
        Except String (AssessState × Bool)) = .ok r := h2
    injection h3 with h4
    exact ⟨ans, rfl, h4.symm⟩

/-- MCQ analogue of `renderYesNo_nonempty_ok`. -/
theorem renderMcq_nonempty_ok (gen : Except String (List QMCQ))
    (sel : Nat → Option Nat) (q : QMCQ) (qt : List QMCQ)
    (ynq : List QYN) (sq : String) (ya ma : List (String × String))
    (sa : Option String) (r : AssessState × Bool)
    (h : renderMcq gen sel ⟨ynq, q :: qt, sq, ya, ma, sa⟩ = .ok r) :
    ∃ ans, renderQLoop (fun q => q.options) sel 0 (q :: qt) ma = .ok ans ∧
      r = (⟨ynq, q :: qt, sq, ya, ans, sa⟩, false) := by
  have h2 : (renderQLoop (fun q => q.options) sel 0 (q :: qt) ma >>=
      fun answers => (Except.ok ((⟨ynq, q :: qt, sq, ya, answers, sa⟩ : AssessState), false) :
        Except String (AssessState × Bool))) = .ok r := h
  cases hl : renderQLoop (fun q => q.options) sel 0 (q :: qt) ma with
  | error e =>
    rw [hl] at h2
    exact absurd
      (show (Except.error e : Except String (AssessState × Bool)) = .ok r from h2)
      (by simp)
  | ok ans =>
    rw [hl] at h2
    have h3 : (Except.ok ((⟨ynq, q :: qt, sq, ya, ans, sa⟩ : AssessState), false) :
        Except String (AssessState × Bool)) = .ok r := h2
    injection h3 with h4
    exact ⟨ans, rfl, h4.symm⟩

/-! ### Claim C8 -/

/-- Claim C8: entering the yes_no, mcq, or scenario phase invokes the
    corresponding generator exactly when that phase's question store is
    empty (parts 1-3); a successful first generation is cached (parts
    4-5); revisiting a phase with a cached store does not re-invoke the
    generator and re-displays the same cached questions (parts 6-7); and
    an idle revisit (no user interaction) preserves every previously
    entered answer exactly (parts 8-10).  Together: a session in which
    generation succeeded invokes each generator exactly once. -/
theorem c8_lazy_generation_caching :
    (∀ lang gen sel (st : AssessState) r, renderYesNo lang gen sel st = .ok r →
      (r.2 = true ↔ st.ynQuestions = [])) ∧
    (∀ gen sel (st : AssessState) r, renderMcq gen sel st = .ok r →
      (r.2 = true ↔ st.mcqQuestions = [])) ∧
    (∀ gen typed (st : AssessState),
      ((renderScenario gen typed st).2 = true ↔ st.scenarioQ = "")) ∧
    (∀ lang qs sel (st : AssessState) r, st.ynQuestions = [] →
      renderYesNo lang (.ok qs) sel st = .ok r → r.1.ynQuestions = qs) ∧
    (∀ qs sel (st : AssessState) r, st.mcqQuestions = [] →
      renderMcq (.ok qs) sel st = .ok r → r.1.mcqQuestions = qs) ∧
    (∀ lang gen sel (st : AssessState) r, st.ynQuestions ≠ [] →
      renderYesNo lang gen sel st = .ok r →
      r.2 = false ∧ r.1.ynQuestions = st.ynQuestions) ∧
    (∀ gen sel (st : AssessState) r, st.mcqQuestions ≠ [] →
      renderMcq gen sel st = .ok r →
      r.2 = false ∧ r.1.mcqQuestions = st.mcqQuestions) ∧
    (∀ lang gen (st : AssessState) r, st.ynQuestions ≠ [] →
      renderYesNo lang gen (fun _ => none) st = .ok r →
      ∀ k v, lookupA st.ynAnswers k = some v → lookupA r.1.ynAnswers k = some v) ∧
    (∀ gen (st : AssessState) r, st.mcqQuestions ≠ [] →
      renderMcq gen (fun _ => none) st = .ok r →
      ∀ k v, lookupA st.mcqAnswers k = some v → lookupA r.1.mcqAnswers k = some v) ∧
    (∀ gen (st : AssessState) s, st.scenarioQ ≠ "" → st.scenarioAnswer = some s →
      (renderScenario gen none st).1.scenarioAnswer = some s) := by
  refine ⟨?_, ?_, ?_, ?_, ?_, ?_, ?_, ?_, ?_, ?_⟩
  · intro lang gen sel st r h
    obtain ⟨ynq, mq, sq, ya, ma, sa⟩ := st
    cases ynq with
    | nil =>
      cases gen with
      | error e =>
        have h2 : (Except.ok ((⟨[], mq, sq, ya, ma, sa⟩ : AssessState), true) :
            Except String (AssessState × Bool)) = .ok r := h
        injection h2 with h3
        rw [← h3]
        simp
      | ok qs =>
        obtain ⟨ans, _, hr⟩ := renderYesNo_empty_ok lang qs sel mq sq ya ma sa r h
        rw [hr]
        simp
    | cons q qt =>
      obtain ⟨ans, _, hr⟩ := renderYesNo_nonempty_ok lang gen sel q qt mq sq ya ma sa r h
      rw [hr]
      simp
  · intro gen sel st r h
    obtain ⟨ynq, mq, sq, ya, ma, sa⟩ := st
    cases mq with
    | nil =>
      cases gen with
      | error e =>
        have h2 : (Except.ok ((⟨ynq, [], sq, ya, ma, sa⟩ : AssessState), true) :
            Except String (AssessState × Bool)) = .ok r := h
        injection h2 with h3
        rw [← h3]
        simp
      | ok qs =>
        obtain ⟨ans, _, hr⟩ := renderMcq_empty_ok qs sel ynq sq ya ma sa r h
        rw [hr]
        simp
    | cons q qt =>
      obtain ⟨ans, _, hr⟩ := renderMcq_nonempty_ok gen sel q qt ynq sq ya ma sa r h
      rw [hr]
      simp
  · intro gen typed st
    obtain ⟨ynq, mq, sq, ya, ma, sa⟩ := st
    by_cases hsq : sq = ""
    · cases gen with
      | error e => simp [renderScenario, hsq]
      | ok s => simp [renderScenario, hsq]
    · cases gen with
      | error e => simp [renderScenario, hsq]
      | ok s => simp [renderScenario, hsq]
  · intro lang qs sel st r he h
    obtain ⟨ynq, mq, sq, ya, ma, sa⟩ := st
    have he2 : ynq = [] := he
    subst he2
    obtain ⟨ans, _, hr⟩ := renderYesNo_empty_ok lang qs sel mq sq ya ma sa r h
    rw [hr]
  · intro qs sel st r he h
    obtain ⟨ynq, mq, sq, ya, ma, sa⟩ := st
    have he2 : mq = [] := he
    subst he2
    obtain ⟨ans, _, hr⟩ := renderMcq_empty_ok qs sel ynq sq ya ma sa r h
    rw [hr]
  · intro lang gen sel st r hne h
    obtain ⟨ynq, mq, sq, ya, ma, sa⟩ := st
    cases ynq with
    | nil => exact absurd rfl hne
    | cons q qt =>
      obtain ⟨ans, _, hr⟩ := renderYesNo_nonempty_ok lang gen sel q qt mq sq ya ma sa r h
      rw [hr]
      exact ⟨rfl, rfl⟩
  · intro gen sel st r hne h
    obtain ⟨ynq, mq, sq, ya, ma, sa⟩ := st
    cases mq with
    | nil => exact absurd rfl hne
    | cons q qt =>
      obtain ⟨ans, _, hr⟩ := renderMcq_nonempty_ok gen sel q qt ynq sq ya ma sa r h
      rw [hr]
      exact ⟨rfl, rfl⟩
  · intro lang gen st r hne h
    obtain ⟨ynq, mq, sq, ya, ma, sa⟩ := st
    cases ynq with
    | nil => exact absurd rfl hne
    | cons q qt =>
      obtain ⟨ans, hloop, hr⟩ :=
        renderYesNo_nonempty_ok lang gen (fun _ => none) q qt mq sq ya ma sa r h
      rw [hr]
      intro k v hk
      exact renderQLoop_idle_preserves (fun _ => ynChoices lang) (q :: qt) 0 ya ans hloop k v hk
  · intro gen st r hne h
    obtain ⟨ynq, mq, sq, ya, ma, sa⟩ := st
    cases mq with
    | nil => exact absurd rfl hne
    | cons q qt =>
      obtain ⟨ans, hloop, hr⟩ :=
        renderMcq_nonempty_ok gen (fun _ => none) q qt ynq sq ya ma sa r h
      rw [hr]
      intro k v hk
      exact renderQLoop_idle_preserves (fun q2 => q2.options) (q :: qt) 0 ma ans hloop k v hk
  · intro gen st s hne hsa
    obtain ⟨ynq, mq, sq, ya, ma, sa⟩ := st
    have hne2 : ¬sq = "" := hne
    have hsa2 : sa = some s := hsa
    subst hsa2
    simp [renderScenario, hne2]

/-- Witness for C8: on a fully visited concrete session slice, a revisit
    of the yes_no phase does not invoke the generator (even a failing
    generator outcome is irrelevant), keeps the cached questions, and
    preserves the stored answer; a first visit with an empty store
    caches the generated questions. -/
theorem c8_lazy_generation_caching_witness :
    (∃ r, renderYesNo "en" (.error "down") (fun _ => none) visitedAssess = .ok r ∧
      r.2 = false ∧ r.1.ynQuestions = visitedAssess.ynQuestions ∧
      lookupA r.1.ynAnswers "q0" = some "No") ∧
    (∃ r2, renderYesNo "en" (.ok sampleYN) (fun _ => none) freshAssess = .ok r2 ∧
      r2.1.ynQuestions = sampleYN ∧ r2.2 = true) := by
  obtain ⟨p1, p2, p3, p4, p5, p6, p7, p8, p9, p10⟩ := c8_lazy_generation_caching
  have hne : visitedAssess.ynQuestions ≠ [] := by simp [visitedAssess, sampleYN]
  constructor
  · have h6 := p6 "en" (.error "down") (fun _ => none) visitedAssess
      (visitedAssess, false) hne rfl
    have h8 := p8 "en" (.error "down") visitedAssess (visitedAssess, false) hne rfl
    exact ⟨(visitedAssess, false), rfl, h6.1, h6.2, h8 "q0" "No" rfl⟩
  · have h4 := p4 "en" sampleYN (fun _ => none) freshAssess
      ((⟨sampleYN, [], "", [("q0", "Yes")], [], none⟩ : AssessState), true) rfl rfl
    have h1 := p1 "en" (.ok sampleYN) (fun _ => none) freshAssess
      ((⟨sampleYN, [], "", [("q0", "Yes")], [], none⟩ : AssessState), true) rfl
    exact ⟨_, rfl, h4, h1.mpr rfl⟩

/-! ### Claim C10 -/

/-- Claim C10: whenever the yes_no or mcq phase renders with a question
    list, the answer store afterwards holds an answer under key `q{i}`
    for every question index — each selector defaults to the first
    choice (the Yes label, or the first MCQ option) when no stored
    answer exists, and the selection is written back immediately — so no
    rendered question is ever unanswered. -/
theorem c10_every_question_answered :
    (∀ lang gen sel (st : AssessState) r, renderYesNo lang gen sel st = .ok r →
      ∀ i, i < r.1.ynQuestions.length →
        (lookupA r.1.ynAnswers ("q" ++ toString i)).isSome = true) ∧
    (∀ gen sel (st : AssessState) r, renderMcq gen sel st = .ok r →
      ∀ i, i < r.1.mcqQuestions.length →
        (lookupA r.1.mcqAnswers ("q" ++ toString i)).isSome = true) ∧
    (∀ lang, radioVal (ynChoices lang) none none = .ok (contentYes lang)) ∧
    (∀ opts : List String, radioVal opts none none = .ok (opts.headD "")) := by
  refine ⟨?_, ?_, ?_, ?_⟩
  · intro lang gen sel st r h
    obtain ⟨ynq, mq, sq, ya, ma, sa⟩ := st
    cases ynq with
    | nil =>
      cases gen with
      | error e =>
        have h2 : (Except.ok ((⟨[], mq, sq, ya, ma, sa⟩ : AssessState), true) :
            Except String (AssessState × Bool)) = .ok r := h
        injection h2 with h3
        rw [← h3]
        intro i hi
        simp at hi
      | ok qs =>
        obtain ⟨ans, hloop, hr⟩ := renderYesNo_empty_ok lang qs sel mq sq ya ma sa r h
        rw [hr]
        intro i hi
        have := renderQLoop_writes (fun _ => ynChoices lang) sel qs 0 ya ans hloop i hi
        simpa using this
    | cons q qt =>
      obtain ⟨ans, hloop, hr⟩ := renderYesNo_nonempty_ok lang gen sel q qt mq sq ya ma sa r h
      rw [hr]
      intro i hi
      have := renderQLoop_writes (fun _ => ynChoices lang) sel (q :: qt) 0 ya ans hloop i hi
      simpa using this
  · intro gen sel st r h
    obtain ⟨ynq, mq, sq, ya, ma, sa⟩ := st
    cases mq with
    | nil =>
      cases gen with
      | error e =>
        have h2 : (Except.ok ((⟨ynq, [], sq, ya, ma, sa⟩ : AssessState), true) :
            Except String (AssessState × Bool)) = .ok r := h
        injection h2 with h3
        rw [← h3]
        intro i hi
        simp at hi
      | ok qs =>
        obtain ⟨ans, hloop, hr⟩ := renderMcq_empty_ok qs sel ynq sq ya ma sa r h
        rw [hr]
        intro i hi
        have := renderQLoop_writes (fun q2 => q2.options) sel qs 0 ma ans hloop i hi
        simpa using this
    | cons q qt =>
      obtain ⟨ans, hloop, hr⟩ := renderMcq_nonempty_ok gen sel q qt ynq sq ya ma sa r h
      rw [hr]
      intro i hi
      have := renderQLoop_writes (fun q2 => q2.options) sel (q :: qt) 0 ma ans hloop i hi
      simpa using this
  · intro lang
    rfl
  · intro opts
    rfl

/-- Witness for C10: a concrete MCQ render (user picks option index 2 on
    a fresh store) leaves question 0 answered; a concrete idle yes_no
    render answers question 0 with the default first choice `Yes`. -/
theorem c10_every_question_answered_witness :
    (∃ r, renderMcq (.ok sampleMCQ) (fun _ => some 2) freshAssess = .ok r ∧
      (lookupA r.1.mcqAnswers "q0").isSome = true ∧
      lookupA r.1.mcqAnswers "q0" = some "C") ∧
    radioVal (ynChoices "en") none none = .ok "Yes" := by
  obtain ⟨p1, p2, p3, p4⟩ := c10_every_question_answered
  constructor
  · have hr : renderMcq (.ok sampleMCQ) (fun _ => some 2) freshAssess =
        .ok ((⟨[], sampleMCQ, "", [], [("q0", "C")], none⟩ : AssessState), true) := rfl
    have h2 := p2 (.ok sampleMCQ) (fun _ => some 2) freshAssess
      ((⟨[], sampleMCQ, "", [], [("q0", "C")], none⟩ : AssessState), true) hr 0
      (by simp [sampleMCQ])
    exact ⟨_, hr, h2, rfl⟩
  · exact p3 "en"

end AILeadership
